import Mathlib

/-!
Shallow embedding of the monitoring core of `monitor.py` (EARTHSITE repository):
the bounded rolling histories (`collections.deque(maxlen=N)`), the system
sampler (`SystemMonitor`), the health prober (`ApplicationMonitor`), the
process locator (`ProcessMonitor`) and the per-round aggregation
(`Monitor.collect_stats` / the body of `Monitor.monitor`), together with
theorems settling the specification claims about them.

External effects (OS metric queries, the HTTP GET, process enumeration,
process-info extraction, wall-clock time) are passed in explicitly as the
round's environment; machine floats are modelled as rationals.
-/

namespace EarthMonitor

/-- `collections.deque(maxlen := maxlen)` append: the new element goes to the
right; if the length would exceed `maxlen`, elements are discarded from the
left. -/
def dequeAppend (maxlen : Nat) (xs : List α) (x : α) : List α :=
  let ys := xs ++ [x]
  if maxlen < ys.length then ys.drop (ys.length - maxlen) else ys

/-- Appending a whole sequence of samples, one `dequeAppend` at a time. -/
def appendAll (maxlen : Nat) (xs : List α) (vals : List α) : List α :=
  vals.foldl (dequeAppend maxlen) xs

theorem dequeAppend_eq_drop (maxlen : Nat) (xs : List α) (x : α) :
    dequeAppend maxlen xs x =
      (xs ++ [x]).drop ((xs ++ [x]).length - maxlen) := by
  simp only [dequeAppend]
  by_cases h : maxlen < (xs ++ [x]).length
  · rw [if_pos h]
  · rw [if_neg h]
    have h0 : (xs ++ [x]).length - maxlen = 0 := by omega
    rw [h0, List.drop_zero]

theorem appendAll_nil (maxlen : Nat) (xs : List α) :
    appendAll maxlen xs [] = xs := rfl

theorem appendAll_cons (maxlen : Nat) (xs : List α) (v : α) (vs : List α) :
    appendAll maxlen xs (v :: vs) =
      appendAll maxlen (dequeAppend maxlen xs v) vs := rfl

theorem appendAll_eq_drop (maxlen : Nat) (vals : List α) :
    ∀ xs : List α, xs.length ≤ maxlen →
      appendAll maxlen xs vals =
        (xs ++ vals).drop ((xs ++ vals).length - maxlen) := by
  induction vals with
  | nil =>
      intro xs h
      rw [appendAll_nil]
      have h0 : (xs ++ ([] : List α)).length - maxlen = 0 := by
        simp only [List.append_nil]; omega
      rw [h0, List.drop_zero, List.append_nil]
  | cons v vs ih =>
      intro xs h
      rw [appendAll_cons, dequeAppend_eq_drop]
      have hd : (xs ++ [v]).length - maxlen ≤ (xs ++ [v]).length := by omega
      have hlen : ((xs ++ [v]).drop ((xs ++ [v]).length - maxlen)).length ≤ maxlen := by
        simp only [List.length_drop, List.length_append, List.length_cons,
          List.length_nil]
        omega
      rw [ih _ hlen]
      have e1 : (xs ++ [v]).drop ((xs ++ [v]).length - maxlen) ++ vs
          = (xs ++ v :: vs).drop ((xs ++ [v]).length - maxlen) := by
        rw [← List.drop_append_of_le_length hd]
        simp
      rw [e1, List.drop_drop]
      congr 1
      simp only [List.length_drop, List.length_append, List.length_cons,
        List.length_nil]
      omega

theorem appendAll_length (maxlen : Nat) (vals : List α) (xs : List α)
    (h : xs.length ≤ maxlen) :
    (appendAll maxlen xs vals).length = min (xs.length + vals.length) maxlen := by
  rw [appendAll_eq_drop maxlen vals xs h]
  simp only [List.length_drop, List.length_append]
  omega

/-! ### ApplicationMonitor (`monitor.py` lines 75–119) -/

/-- One entry of `self.errors`: `{'time': datetime.now().isoformat(),
'error': str(e)}`. -/
structure ErrorRecord where
  time : String
  error : String
deriving DecidableEq

/-- The mutable state of `ApplicationMonitor`: `self.response_times`
(`deque(maxlen=60)`) and `self.errors` (`deque(maxlen=100)`). -/
structure AppMonitorState where
  response_times : List ℚ
  errors : List ErrorRecord
deriving DecidableEq

/-- `ApplicationMonitor.__init__`: both histories start empty. -/
def initApp : AppMonitorState := { response_times := [], errors := [] }

/-- The dictionary returned by `check_health`. -/
structure HealthResult where
  status : Int
  response_time : ℚ
  is_alive : Bool
  error : Option String
deriving DecidableEq

/-- Outcome of the single `requests.get(self.url)` call of a probe round:
either a completed response (status code and measured elapsed time), or a
raised network-level exception with its message. -/
inductive ProbeOutcome where
  | success (status_code : Int) (elapsed : ℚ)
  | failure (msg : String)
deriving DecidableEq

/-- `ApplicationMonitor.check_health` (lines 83–107): on a completed
response, append the measured elapsed time to `self.response_times` and
return status/latency/aliveness; on an exception, append an `ErrorRecord`
to `self.errors` and return the zeroed failure record. `now` is the value
of `datetime.now().isoformat()` at the `except` branch. -/
def check_health (st : AppMonitorState) (now : String) (o : ProbeOutcome) :
    AppMonitorState × HealthResult :=
  match o with
  | .success code elapsed =>
      ({ st with response_times := dequeAppend 60 st.response_times elapsed },
       { status := code, response_time := elapsed,
         is_alive := decide (code = 200), error := none })
  | .failure msg =>
      ({ st with errors := dequeAppend 100 st.errors { time := now, error := msg } },
       { status := 0, response_time := 0, is_alive := false, error := some msg })

/-- `ApplicationMonitor.get_average_response_time` (lines 109–113). -/
def get_average_response_time (st : AppMonitorState) : ℚ :=
  if st.response_times = [] then 0
  else st.response_times.sum / st.response_times.length

/-- `ApplicationMonitor.get_error_rate` (lines 115–119). -/
def get_error_rate (st : AppMonitorState) : ℚ :=
  if st.errors = [] then 0
  else ((st.errors.length : ℚ) / 100) * 100

/-- A sequence of probe rounds: each round supplies the wall-clock
timestamp and the network outcome, and only the `check_health` state
update is retained. -/
def runProbes (st : AppMonitorState) (ps : List (String × ProbeOutcome)) :
    AppMonitorState :=
  ps.foldl (fun s p => (check_health s p.1 p.2).1) st

/-- The error records a sequence of probe outcomes generates. -/
def failRecords (ps : List (String × ProbeOutcome)) : List ErrorRecord :=
  ps.filterMap fun p =>
    match p.2 with
    | .failure m => some { time := p.1, error := m }
    | .success _ _ => none

/-- The number of failed probes in a sequence. -/
def countFailures (ps : List (String × ProbeOutcome)) : Nat :=
  (failRecords ps).length

theorem runProbes_errors (ps : List (String × ProbeOutcome)) :
    ∀ st : AppMonitorState,
      (runProbes st ps).errors = appendAll 100 st.errors (failRecords ps) := by
  induction ps with
  | nil => intro st; rfl
  | cons p ps ih =>
      intro st
      obtain ⟨now, o⟩ := p
      cases o with
      | success code elapsed =>
          show (runProbes _ ps).errors = _
          rw [ih]
          rfl
      | failure msg =>
          show (runProbes _ ps).errors = _
          rw [ih]
          rfl

theorem runProbes_errors_length (ps : List (String × ProbeOutcome)) :
    (runProbes initApp ps).errors.length = min (countFailures ps) 100 := by
  rw [runProbes_errors]
  have h := appendAll_length 100 (failRecords ps) initApp.errors (by simp [initApp])
  simpa [initApp, countFailures] using h

theorem countFailures_append (ps qs : List (String × ProbeOutcome)) :
    countFailures (ps ++ qs) = countFailures ps + countFailures qs := by
  simp [countFailures, failRecords]

theorem get_error_rate_eq_length (st : AppMonitorState) :
    get_error_rate st = (st.errors.length : ℚ) := by
  unfold get_error_rate
  by_cases h : st.errors = []
  · simp [h]
  · rw [if_neg h]
    rw [div_mul_cancel₀]
    norm_num

/-! ### SystemMonitor (`monitor.py` lines 30–73) -/

/-- The mutable state of `SystemMonitor`: three `deque(maxlen=60)`
histories. -/
structure SystemMonitorState where
  cpu_history : List ℚ
  memory_history : List ℚ
  disk_history : List ℚ
deriving DecidableEq

/-- `SystemMonitor.__init__`: all three histories start empty. -/
def initSys : SystemMonitorState :=
  { cpu_history := [], memory_history := [], disk_history := [] }

/-- `SystemMonitor.update_history` (lines 60–64).  Each OS query
(`get_cpu_usage`, `get_memory_usage()['percent']`,
`get_disk_usage()['percent']`) is passed in as an `Except`: `.ok v` when the
`psutil` call returns `v`, `.error e` when it raises.  The three statements
run in order with no exception handler, so a raising query leaves the
earlier appends in place, skips the later ones, and propagates the
exception (returned here as `some e`). -/
def update_history (st : SystemMonitorState)
    (cpu memory disk : Except String ℚ) : SystemMonitorState × Option String :=
  match cpu with
  | .error e => (st, some e)
  | .ok c =>
    let st1 := { st with cpu_history := dequeAppend 60 st.cpu_history c }
    match memory with
    | .error e => (st1, some e)
    | .ok m =>
      let st2 := { st1 with memory_history := dequeAppend 60 st1.memory_history m }
      match disk with
      | .error e => (st2, some e)
      | .ok d =>
        ({ st2 with disk_history := dequeAppend 60 st2.disk_history d }, none)

/-! ### The HTTP request issued by `check_health` (`monitor.py` line 87) -/

/-- Descriptor of one `requests.get` call: the URL and the value of the
`timeout` keyword argument (`none` when the argument is not passed, in
which case `requests` waits indefinitely). -/
structure HttpRequest where
  url : String
  timeout : Option ℚ
deriving DecidableEq

/-- The single network call of `ApplicationMonitor.check_health` is
`requests.get(self.url)` — no `timeout` argument is supplied. -/
def check_health_request (url : String) : HttpRequest :=
  { url := url, timeout := none }

/-! ### ProcessMonitor (`monitor.py` lines 121–154) -/

/-- The `proc.info` dictionary of one enumerated process:
`{'pid', 'name', 'cmdline'}`. -/
structure ProcInfo where
  pid : Nat
  name : String
  cmdline : List String
deriving DecidableEq

/-- One item yielded by `psutil.process_iter`: either its `info` dictionary,
or a process whose inspection raises `NoSuchProcess`/`AccessDenied`
(caught and skipped by `find_processes`). -/
inductive ProcEntry where
  | ok (p : ProcInfo)
  | gone
deriving DecidableEq

/-- `str.lower()` — ASCII lowering, as `Char.toLower`. -/
def lowerStr (s : String) : String := ⟨s.data.map Char.toLower⟩

/-- `needle in hay` for lists (Python substring containment: the empty
needle is contained in everything). -/
def isPrefixList [BEq α] : List α → List α → Bool
  | [], _ => true
  | _ :: _, [] => false
  | a :: as, b :: bs => a == b && isPrefixList as bs

def containsSubList [BEq α] (needle : List α) : List α → Bool
  | [] => needle.isEmpty
  | b :: bs => isPrefixList needle (b :: bs) || containsSubList needle bs

/-- Python string containment `needle in hay`. -/
def strContainsSub (hay needle : String) : Bool :=
  containsSubList needle.data hay.data

/-- The filter of `find_processes` (lines 133–134):
`self.process_name in proc.info['name'].lower()` and
`any('server.py' in cmd.lower() for cmd in proc.info['cmdline'] if cmd)`.
Note that the name filter itself is NOT lowercased, only the process
name is. -/
def matchesFilter (process_name : String) (p : ProcInfo) : Bool :=
  strContainsSub (lowerStr p.name) process_name &&
    p.cmdline.any (fun cmd => !cmd.isEmpty && strContainsSub (lowerStr cmd) "server.py")

/-- One iteration of the `for proc in psutil.process_iter(...)` loop body:
a raising process is skipped (`except ... pass`), a matching one is
appended to `self.processes`. -/
def procStep (process_name : String) (acc : List ProcInfo) (e : ProcEntry) :
    List ProcInfo :=
  match e with
  | .gone => acc
  | .ok p => if matchesFilter process_name p then acc ++ [p] else acc

/-- `ProcessMonitor.find_processes` (lines 128–138) with the prior cached
`self.processes` passed in: the method first resets `self.processes = []`,
so the prior value is discarded, then accumulates matches over the
enumeration. -/
def find_processes_st (_self_processes : List ProcInfo) (process_name : String)
    (procs : List ProcEntry) : List ProcInfo :=
  procs.foldl (procStep process_name) []

/-- `find_processes` as a pure function of the filter and the enumeration. -/
def find_processes (process_name : String) (procs : List ProcEntry) :
    List ProcInfo :=
  procs.foldl (procStep process_name) []

theorem foldl_procStep (process_name : String) (procs : List ProcEntry) :
    ∀ acc : List ProcInfo,
      procs.foldl (procStep process_name) acc =
        acc ++ procs.filterMap (fun e =>
          match e with
          | .gone => none
          | .ok p => if matchesFilter process_name p then some p else none) := by
  induction procs with
  | nil => intro acc; simp
  | cons e es ih =>
      intro acc
      cases e with
      | gone => simpa [procStep] using ih acc
      | ok p =>
          by_cases hp : matchesFilter process_name p
          · simp only [List.foldl_cons, procStep, if_pos hp, ih,
              List.filterMap_cons, List.append_assoc, List.cons_append,
              List.nil_append]
          · simp only [List.foldl_cons, procStep, if_neg hp, ih,
              List.filterMap_cons]

theorem find_processes_eq_filterMap (process_name : String)
    (procs : List ProcEntry) :
    find_processes process_name procs =
      procs.filterMap (fun e =>
        match e with
        | .gone => none
        | .ok p => if matchesFilter process_name p then some p else none) := by
  simpa [find_processes] using foldl_procStep process_name procs []

/-- The dictionary built by `ProcessMonitor.get_process_info`
(lines 140–154). -/
structure ProcessStats where
  pid : Nat
  cpu_percent : ℚ
  memory_rss : ℚ
  memory_vms : ℚ
  threads : Nat
  connections : Nat
  open_files : Nat
deriving DecidableEq

/-! ### Monitor (`monitor.py` lines 156–274) -/

/-- The monitoring state owned by `Monitor`: the system histories and the
application histories (`ProcessMonitor`'s cached list is reset on every
call and never read, so it is omitted). -/
structure MonState where
  sys : SystemMonitorState
  app : AppMonitorState
deriving DecidableEq

/-- The `'system'` block of the stats dictionary. -/
structure SnapSystem where
  cpu_percent : ℚ
  memory_percent : ℚ
  disk_percent : ℚ
  cpu_history : List ℚ
  memory_history : List ℚ
  disk_history : List ℚ
deriving DecidableEq

/-- The `'application'` block of the stats dictionary. -/
structure SnapApp where
  is_alive : Bool
  status_code : Int
  response_time : ℚ
  avg_response_time : ℚ
  error_rate : ℚ
  recent_errors : List ErrorRecord
deriving DecidableEq

/-- The stats dictionary assembled by `Monitor.collect_stats`; the
`'process'` block is `none` for the empty dictionary `{}`. -/
structure Snapshot where
  timestamp : String
  system : SnapSystem
  application : SnapApp
  process : Option ProcessStats
deriving DecidableEq

/-- The external inputs consumed by one round of `Monitor.collect_stats`:
the wall-clock timestamp, the three OS readings taken inside
`update_history`, the probe outcome, the process enumeration, the
`get_process_info` oracle (`none` models the `{}` returned on
`NoSuchProcess`/`AccessDenied`), and the three point OS readings taken
again while assembling the stats dictionary (lines 222–224). -/
structure RoundEnv where
  now : String
  cpuSample : Except String ℚ
  memSample : Except String ℚ
  diskSample : Except String ℚ
  probe : ProbeOutcome
  procs : List ProcEntry
  getInfo : ProcInfo → Option ProcessStats
  cpuPoint : Except String ℚ
  memPoint : Except String ℚ
  diskPoint : Except String ℚ

/-- `Monitor.collect_stats` (lines 204–240).  `update_history` runs first
(its exception aborts the round but keeps its partial state mutation);
then `check_health`; then `find_processes` with the fixed default filter
`'python'`, with `get_process_info` invoked only on the first match; then
the stats dictionary is assembled, re-querying CPU, memory and disk — each
of those point queries may itself raise, aborting the round. -/
def collect_stats (st : MonState) (env : RoundEnv) :
    MonState × Except String Snapshot :=
  match update_history st.sys env.cpuSample env.memSample env.diskSample with
  | (sys1, some e) => ({ sys := sys1, app := st.app }, .error e)
  | (sys1, none) =>
    let ch := check_health st.app env.now env.probe
    let app1 := ch.1
    let health := ch.2
    let processes := find_processes "python" env.procs
    let pinfo : Option ProcessStats :=
      match processes with
      | [] => none
      | p :: _ => env.getInfo p
    let st1 : MonState := { sys := sys1, app := app1 }
    match env.cpuPoint, env.memPoint, env.diskPoint with
    | .error e, _, _ => (st1, .error e)
    | _, .error e, _ => (st1, .error e)
    | _, _, .error e => (st1, .error e)
    | .ok cpuv, .ok memv, .ok diskv =>
        (st1, .ok {
          timestamp := env.now,
          system := {
            cpu_percent := cpuv, memory_percent := memv, disk_percent := diskv,
            cpu_history := sys1.cpu_history,
            memory_history := sys1.memory_history,
            disk_history := sys1.disk_history },
          application := {
            is_alive := health.is_alive, status_code := health.status,
            response_time := health.response_time,
            avg_response_time := get_average_response_time app1,
            error_rate := get_error_rate app1,
            recent_errors := app1.errors },
          process := pinfo })

/-- One line appended to `output` by `Monitor.format_stats`
(lines 175–202); the numeric text rendering is kept abstract. -/
inductive OutLine where
  | statusLine (alive : Bool)
  | systemHeader
  | cpuLine (v : ℚ)
  | memLine (v : ℚ)
  | diskLine (v : ℚ)
  | processHeader
  | pidLine (pid : Nat)
  | procCpuLine (v : ℚ)
  | procMemLine (v : ℚ)
  | procThreadsLine (n : Nat)
  | perfHeader
  | avgRespLine (ms : ℚ)
  | errRateLine (r : ℚ)
deriving DecidableEq

/-- `Monitor.format_stats`: the status glyph, the system block, the
process block only when `stats['process']` is non-empty, then the
performance block (average latency converted to milliseconds). -/
def format_stats (stats : Snapshot) : List OutLine :=
  [OutLine.statusLine stats.application.is_alive,
   OutLine.systemHeader,
   OutLine.cpuLine stats.system.cpu_percent,
   OutLine.memLine stats.system.memory_percent,
   OutLine.diskLine stats.system.disk_percent]
  ++ (match stats.process with
      | none => []
      | some p =>
          [OutLine.processHeader, OutLine.pidLine p.pid,
           OutLine.procCpuLine p.cpu_percent, OutLine.procMemLine p.memory_rss,
           OutLine.procThreadsLine p.threads])
  ++ [OutLine.perfHeader,
      OutLine.avgRespLine (stats.application.avg_response_time * 1000),
      OutLine.errRateLine stats.application.error_rate]

/-- One iteration of the body of `Monitor.monitor` (lines 247–269) up to
the rendering step: collect the stats, and on success pair the snapshot
that `save_stats` persists with the lines `format_stats` renders.  A raised
exception leaves the loop (it is not caught per-round). -/
def monitor_round (st : MonState) (env : RoundEnv) :
    MonState × Except String (Snapshot × List OutLine) :=
  match collect_stats st env with
  | (st1, .error e) => (st1, .error e)
  | (st1, .ok snap) => (st1, .ok (snap, format_stats snap))

/-! ### Shared helper lemmas -/

theorem dequeAppend_if (maxlen : Nat) (hN : 0 < maxlen) (xs : List α) (x : α)
    (h : xs.length ≤ maxlen) :
    dequeAppend maxlen xs x =
      if xs.length < maxlen then xs ++ [x] else xs.drop 1 ++ [x] := by
  rw [dequeAppend_eq_drop]
  by_cases hlt : xs.length < maxlen
  · rw [if_pos hlt]
    have h0 : (xs ++ [x]).length - maxlen = 0 := by
      simp only [List.length_append, List.length_cons, List.length_nil]; omega
    rw [h0, List.drop_zero]
  · rw [if_neg hlt]
    have h1 : (xs ++ [x]).length - maxlen = 1 := by
      simp only [List.length_append, List.length_cons, List.length_nil]; omega
    rw [h1, List.drop_append_of_le_length (by omega)]

theorem check_health_failure_errors (st : AppMonitorState) (now msg : String)
    (h : st.errors.length ≤ 100) :
    (check_health st now (.failure msg)).1.errors =
      if st.errors.length < 100
      then st.errors ++ [{ time := now, error := msg }]
      else st.errors.drop 1 ++ [{ time := now, error := msg }] := by
  show dequeAppend 100 st.errors { time := now, error := msg } = _
  exact dequeAppend_if 100 (by omega) st.errors _ h

/-! ### Claim theorems -/

/-- Claim C3: for every history buffer of capacity `N` (CPU, memory, disk
and latency use `N = 60`; the error FIFO uses `N = 100`) and every
sequence of `K` appended values, the buffer afterwards holds exactly
`min (K, N)` values in insertion order (the retained values are the last
`N` appended ones), when `K > N` the oldest retained value is the
`(K-N+1)`-th appended one, the length never exceeds `N`, and a single
insertion evicts only the oldest element. -/
theorem claim_C3_historyBuffer_fifo :
    (∀ (N : ℕ) (vals : List ℚ),
        appendAll N ([] : List ℚ) vals = vals.drop (vals.length - N)
        ∧ (appendAll N ([] : List ℚ) vals).length = min vals.length N
        ∧ (appendAll N ([] : List ℚ) vals).head? = vals[vals.length - N]?)
    ∧ ∀ (N : ℕ) (xs : List ℚ) (x : ℚ), 0 < N → xs.length ≤ N →
        dequeAppend N xs x =
          if xs.length < N then xs ++ [x] else xs.drop 1 ++ [x] := by
  constructor
  · intro N vals
    have h := appendAll_eq_drop N vals [] (by simp)
    simp only [List.nil_append] at h
    refine ⟨h, ?_, ?_⟩
    · rw [h]
      simp only [List.length_drop]
      omega
    · rw [h, List.head?_drop]
  · intro N xs x hN h
    exact dequeAppend_if N hN xs x h

/-- Claim C3 witness: the buffer properties at capacity 2 with three
appended values. -/
theorem claim_C3_historyBuffer_fifo_witness :
    dequeAppend 2 ([1, 2] : List ℚ) 3 =
      if ([1, 2] : List ℚ).length < 2
      then ([1, 2] : List ℚ) ++ [3]
      else ([1, 2] : List ℚ).drop 1 ++ [3] :=
  claim_C3_historyBuffer_fifo.2 2 [1, 2] 3 (by decide) (by decide)

/-- Claim C1: on a probe round whose HTTP GET raises, `check_health`
appends exactly one `ErrorRecord` carrying the failure message and the
current timestamp to the bounded error FIFO (evicting only the oldest
entry when full), appends nothing to the latency history, and returns
`{status = 0, response_time = 0, is_alive = false, error = msg}`; over any
sequence of probes from the initial state the error FIFO length is
`min(total_failures_so_far, 100)`. -/
theorem claim_C1_failed_probe :
    (∀ (st : AppMonitorState) (now msg : String),
        (check_health st now (.failure msg)).1.response_times = st.response_times
        ∧ (check_health st now (.failure msg)).2 =
            { status := 0, response_time := 0, is_alive := false, error := some msg }
        ∧ (st.errors.length ≤ 100 →
            (check_health st now (.failure msg)).1.errors =
              if st.errors.length < 100
              then st.errors ++ [{ time := now, error := msg }]
              else st.errors.drop 1 ++ [{ time := now, error := msg }]))
    ∧ ∀ ps : List (String × ProbeOutcome),
        (runProbes initApp ps).errors.length = min (countFailures ps) 100 := by
  constructor
  · intro st now msg
    exact ⟨rfl, rfl, check_health_failure_errors st now msg⟩
  · exact runProbes_errors_length

/-- Claim C1 witness: the failure-round behaviour at the initial state. -/
theorem claim_C1_failed_probe_witness :
    (check_health initApp "t0" (.failure "connection refused")).1.errors =
      if initApp.errors.length < 100
      then initApp.errors ++ [{ time := "t0", error := "connection refused" }]
      else initApp.errors.drop 1 ++ [{ time := "t0", error := "connection refused" }] :=
  (claim_C1_failed_probe.1 initApp "t0" "connection refused").2.2 (by decide)

/-- Claim C2: `get_error_rate` returns `(occupancy / 100) * 100`, which is
numerically the occupancy count of the error FIFO, is `0` on an empty
FIFO, and never exceeds `100` on any reachable state because the FIFO's
capacity is `100`. -/
theorem claim_C2_error_rate_occupancy :
    (∀ st : AppMonitorState, get_error_rate st = (st.errors.length : ℚ))
    ∧ (∀ rts : List ℚ,
        get_error_rate { response_times := rts, errors := [] } = 0)
    ∧ ∀ ps : List (String × ProbeOutcome),
        get_error_rate (runProbes initApp ps) ≤ 100 := by
  refine ⟨get_error_rate_eq_length, ?_, ?_⟩
  · intro rts
    simp [get_error_rate]
  · intro ps
    rw [get_error_rate_eq_length, runProbes_errors_length]
    exact_mod_cast Nat.min_le_right (countFailures ps) 100

/-- Claim C7: on a probe round whose HTTP GET completes, `check_health`
reports `is_alive` true exactly when the status code is 200, returns the
measured elapsed time and status code, touches no error record, and
appends the elapsed time to the latency history (also for non-200
statuses), evicting only the oldest sample when the history is full. -/
theorem claim_C7_completed_probe :
    ∀ (st : AppMonitorState) (now : String) (code : Int) (elapsed : ℚ),
      ((check_health st now (.success code elapsed)).2.is_alive = true ↔ code = 200)
      ∧ (check_health st now (.success code elapsed)).2.status = code
      ∧ (check_health st now (.success code elapsed)).2.response_time = elapsed
      ∧ (check_health st now (.success code elapsed)).2.error = none
      ∧ (check_health st now (.success code elapsed)).1.errors = st.errors
      ∧ (st.response_times.length ≤ 60 →
          (check_health st now (.success code elapsed)).1.response_times =
            if st.response_times.length < 60
            then st.response_times ++ [elapsed]
            else st.response_times.drop 1 ++ [elapsed]) := by
  intro st now code elapsed
  refine ⟨?_, rfl, rfl, rfl, rfl, ?_⟩
  · show decide (code = 200) = true ↔ code = 200
    exact decide_eq_true_iff
  · intro h
    show dequeAppend 60 st.response_times elapsed = _
    exact dequeAppend_if 60 (by omega) st.response_times elapsed h

/-- Claim C7 witness: a completed non-200 response still appends its
latency to the history. -/
theorem claim_C7_completed_probe_witness :
    (check_health initApp "t0" (.success 404 (1/2))).1.response_times =
      if initApp.response_times.length < 60
      then initApp.response_times ++ [1/2]
      else initApp.response_times.drop 1 ++ [1/2] :=
  (claim_C7_completed_probe initApp "t0" 404 (1/2)).2.2.2.2.2 (by decide)

/-- Claim C9: `get_average_response_time` returns the arithmetic mean of
the latency history (its value times the sample count equals the sample
sum) and returns `0` on an empty history. -/
theorem claim_C9_average_response_time :
    ∀ st : AppMonitorState,
      (st.response_times = [] → get_average_response_time st = 0)
      ∧ get_average_response_time st * (st.response_times.length : ℚ) =
          st.response_times.sum := by
  intro st
  constructor
  · intro h
    simp [get_average_response_time, h]
  · by_cases h : st.response_times = []
    · simp [get_average_response_time, h]
    · rw [get_average_response_time, if_neg h, div_mul_cancel₀]
      exact Nat.cast_ne_zero.mpr (by simpa [List.length_eq_zero] using h)

/-- Claim C9 witness: the empty latency history yields average 0. -/
theorem claim_C9_average_response_time_witness :
    get_average_response_time initApp = 0 :=
  (claim_C9_average_response_time initApp).1 rfl

/-- Claim C10: the error FIFO loses entries only when an append at
capacity 100 evicts the oldest one (a successful probe leaves it
untouched), so over any sequence of probe rounds the reported error rate
is monotonically non-decreasing — it never falls back toward 0 even if
every later probe succeeds. -/
theorem claim_C10_error_rate_monotone :
    (∀ (st : AppMonitorState) (now msg : String), st.errors.length ≤ 100 →
        (check_health st now (.failure msg)).1.errors =
          if st.errors.length < 100
          then st.errors ++ [{ time := now, error := msg }]
          else st.errors.drop 1 ++ [{ time := now, error := msg }])
    ∧ (∀ (st : AppMonitorState) (now : String) (code : Int) (elapsed : ℚ),
        (check_health st now (.success code elapsed)).1.errors = st.errors)
    ∧ ∀ ps qs : List (String × ProbeOutcome),
        get_error_rate (runProbes initApp ps) ≤
          get_error_rate (runProbes initApp (ps ++ qs)) := by
  refine ⟨check_health_failure_errors, fun _ _ _ _ => rfl, ?_⟩
  intro ps qs
  rw [get_error_rate_eq_length, get_error_rate_eq_length,
    runProbes_errors_length, runProbes_errors_length, countFailures_append]
  have h : min (countFailures ps) 100 ≤
      min (countFailures ps + countFailures qs) 100 := by omega
  exact_mod_cast h

/-- Claim C10 witness: one failed probe on the initial state appends its
record without evicting anything. -/
theorem claim_C10_error_rate_monotone_witness :
    (check_health initApp "t1" (.failure "timeout")).1.errors =
      if initApp.errors.length < 100
      then initApp.errors ++ [{ time := "t1", error := "timeout" }]
      else initApp.errors.drop 1 ++ [{ time := "t1", error := "timeout" }] :=
  claim_C10_error_rate_monotone.1 initApp "t1" "timeout" (by decide)

/-- Claim C4 counterexample: when the CPU query raises while the memory
and disk queries would have succeeded, `update_history` samples neither of
the other two metrics (both histories stay empty instead of receiving the
available values) and the round aborts with the propagated error, contrary
to the claimed independent, non-aborting degradation. -/
theorem claim_C4_counterexample :
    (update_history initSys (.error "cpu query failed") (.ok 1) (.ok 2)).1.memory_history
        = []
    ∧ (update_history initSys (.error "cpu query failed") (.ok 1) (.ok 2)).1.disk_history
        = []
    ∧ (update_history initSys (.error "cpu query failed") (.ok 1) (.ok 2)).2
        = some "cpu query failed" :=
  ⟨rfl, rfl, rfl⟩

/-- Claim C4 amended: `update_history` samples CPU, memory and disk in
that fixed order with no per-metric error containment: the first failing
OS query aborts the round at that point — queries before it in the order
have already appended their values, queries after it are not sampled at
all, and the exception propagates; only when all three succeed does the
round complete. -/
theorem claim_C4_first_failure_aborts :
    ∀ (st : SystemMonitorState) (e : String) (c m d : ℚ),
      (∀ mq dq : Except String ℚ,
          update_history st (.error e) mq dq = (st, some e))
      ∧ (∀ dq : Except String ℚ,
          update_history st (.ok c) (.error e) dq =
            ({ st with cpu_history := dequeAppend 60 st.cpu_history c }, some e))
      ∧ update_history st (.ok c) (.ok m) (.error e) =
          ({ st with cpu_history := dequeAppend 60 st.cpu_history c,
                     memory_history := dequeAppend 60 st.memory_history m }, some e)
      ∧ update_history st (.ok c) (.ok m) (.ok d) =
          ({ cpu_history := dequeAppend 60 st.cpu_history c,
             memory_history := dequeAppend 60 st.memory_history m,
             disk_history := dequeAppend 60 st.disk_history d }, none) := by
  intro st e c m d
  exact ⟨fun _ _ => rfl, fun _ => rfl, rfl, rfl⟩

/-- Claim C5: the single network call the monitor issues — the HTTP GET of
`check_health` — is `requests.get(self.url)` with no `timeout` keyword, so
no explicit timeout bounds a hung probe; this refutes the claimed bound on
a round's duration. -/
theorem claim_C5_get_has_no_timeout :
    ∀ url : String, (check_health_request url).timeout = none :=
  fun _ => rfl

/-- Claim C6 counterexample: with the filter `"Python"`, a process named
`"python"` whose command line contains `"server.py"` is NOT returned by
`find_processes`, although its name does contain the filter
case-insensitively — the code lowercases only the process name, never the
filter, so matching is not case-insensitive in the filter. -/
theorem claim_C6_counterexample :
    find_processes "Python"
        [ProcEntry.ok { pid := 1, name := "python", cmdline := ["python", "server.py"] }]
        = []
    ∧ strContainsSub (lowerStr "python") (lowerStr "Python") = true
    ∧ (["python", "server.py"].any fun cmd => strContainsSub cmd "server.py") = true := by
  refine ⟨?_, ?_, ?_⟩ <;> decide

/-- Claim C6 amended: `find_processes` returns exactly those enumerated
processes whose LOWERCASED executable name contains the filter string
literally (case-insensitive matching of the name, but case-sensitive in
the filter — equivalent to case-insensitive matching only when the filter
is already lowercase, as the program's fixed default `'python'` is) and
whose command line has a non-empty argument whose lowercased text contains
`"server.py"`; a process that disappears or denies access during
enumeration is silently skipped, and the result is recomputed freshly on
every call, independent of the previously cached list. -/
theorem claim_C6_filter_matching :
    (∀ (process_name : String) (procs : List ProcEntry) (p : ProcInfo),
        p ∈ find_processes process_name procs ↔
          ProcEntry.ok p ∈ procs
          ∧ strContainsSub (lowerStr p.name) process_name = true
          ∧ (p.cmdline.any fun cmd =>
              !cmd.isEmpty && strContainsSub (lowerStr cmd) "server.py") = true)
    ∧ (∀ (process_name : String) (procs : List ProcEntry),
        find_processes process_name (ProcEntry.gone :: procs) =
          find_processes process_name procs)
    ∧ ∀ (old : List ProcInfo) (process_name : String) (procs : List ProcEntry),
        find_processes_st old process_name procs =
          find_processes process_name procs := by
  refine ⟨?_, ?_, ?_⟩
  · intro process_name procs p
    rw [find_processes_eq_filterMap, List.mem_filterMap]
    constructor
    · rintro ⟨e, he, hfe⟩
      cases e with
      | gone => simp at hfe
      | ok q =>
          have hfe2 : (if matchesFilter process_name q = true
              then some q else none) = some p := hfe
          by_cases hm : matchesFilter process_name q = true
          · rw [if_pos hm] at hfe2
            obtain rfl : q = p := Option.some.inj hfe2
            have hm2 := hm
            simp only [matchesFilter, Bool.and_eq_true] at hm2
            exact ⟨he, hm2.1, hm2.2⟩
          · rw [if_neg hm] at hfe2
            exact absurd hfe2 (by simp)
    · rintro ⟨hin, h1, h2⟩
      refine ⟨ProcEntry.ok p, hin, ?_⟩
      have hm : matchesFilter process_name p = true := by
        simp only [matchesFilter, Bool.and_eq_true]
        exact ⟨h1, h2⟩
      show (if matchesFilter process_name p = true then some p else none) = some p
      rw [if_pos hm]
  · intro process_name procs
    rfl
  · intro old process_name procs
    rfl

/-- Representation of `Except` success as a Boolean, for stating that a
round completed. -/
def exceptIsOk (x : Except String Snapshot) : Bool :=
  match x with
  | .ok _ => true
  | .error _ => false

/-- The `'process'` block of a completed round's snapshot. -/
def snapProcess (x : Except String Snapshot) : Option (Option ProcessStats) :=
  match x with
  | .ok s => some s.process
  | .error _ => none

/-- Claim C8: when zero enumerated processes match the signature and the
OS queries of the round succeed, `collect_stats` completes with a
snapshot whose process block is the empty structure, the process-info
oracle is never consulted (the round is identical under any two oracles),
and the round persists and renders that same snapshot as usual. -/
theorem claim_C8_zero_process_matches :
    ∀ (st : MonState) (now : String) (cs ms ds cp mp dp : ℚ)
      (probe : ProbeOutcome) (procs : List ProcEntry)
      (g1 g2 : ProcInfo → Option ProcessStats),
      find_processes "python" procs = [] →
      exceptIsOk (collect_stats st
          { now := now, cpuSample := .ok cs, memSample := .ok ms,
            diskSample := .ok ds, probe := probe, procs := procs, getInfo := g1,
            cpuPoint := .ok cp, memPoint := .ok mp, diskPoint := .ok dp }).2 = true
      ∧ snapProcess (collect_stats st
          { now := now, cpuSample := .ok cs, memSample := .ok ms,
            diskSample := .ok ds, probe := probe, procs := procs, getInfo := g1,
            cpuPoint := .ok cp, memPoint := .ok mp, diskPoint := .ok dp }).2 = some none
      ∧ monitor_round st
          { now := now, cpuSample := .ok cs, memSample := .ok ms,
            diskSample := .ok ds, probe := probe, procs := procs, getInfo := g1,
            cpuPoint := .ok cp, memPoint := .ok mp, diskPoint := .ok dp }
        = monitor_round st
          { now := now, cpuSample := .ok cs, memSample := .ok ms,
            diskSample := .ok ds, probe := probe, procs := procs, getInfo := g2,
            cpuPoint := .ok cp, memPoint := .ok mp, diskPoint := .ok dp }
      ∧ (monitor_round st
          { now := now, cpuSample := .ok cs, memSample := .ok ms,
            diskSample := .ok ds, probe := probe, procs := procs, getInfo := g1,
            cpuPoint := .ok cp, memPoint := .ok mp, diskPoint := .ok dp }).2
        = Except.map (fun s => (s, format_stats s)) (collect_stats st
          { now := now, cpuSample := .ok cs, memSample := .ok ms,
            diskSample := .ok ds, probe := probe, procs := procs, getInfo := g1,
            cpuPoint := .ok cp, memPoint := .ok mp, diskPoint := .ok dp }).2 := by
  intro st now cs ms ds cp mp dp probe procs g1 g2 h
  refine ⟨?_, ?_, ?_, ?_⟩ <;>
    simp only [monitor_round, collect_stats, update_history, h, exceptIsOk,
      snapProcess, Except.map]

/-- Fixed process-info oracle answering the empty dictionary, used to
instantiate claim C8. -/
def noInfo : ProcInfo → Option ProcessStats := fun _ => none

/-- The initial monitoring state: all histories empty. -/
def initMon : MonState := { sys := initSys, app := initApp }

/-- A concrete all-successful round environment with no enumerated
processes. -/
def sampleEnv (g : ProcInfo → Option ProcessStats) : RoundEnv :=
  { now := "t", cpuSample := .ok 1, memSample := .ok 2, diskSample := .ok 3,
    probe := .success 200 1, procs := [], getInfo := g,
    cpuPoint := .ok 4, memPoint := .ok 5, diskPoint := .ok 6 }

/-- Claim C8 witness: the zero-match round behaviour on a concrete
environment. -/
theorem claim_C8_zero_process_matches_witness :
    exceptIsOk (collect_stats initMon (sampleEnv noInfo)).2 = true
    ∧ snapProcess (collect_stats initMon (sampleEnv noInfo)).2 = some none
    ∧ monitor_round initMon (sampleEnv noInfo) = monitor_round initMon (sampleEnv noInfo)
    ∧ (monitor_round initMon (sampleEnv noInfo)).2
      = Except.map (fun s => (s, format_stats s))
          (collect_stats initMon (sampleEnv noInfo)).2 :=
  claim_C8_zero_process_matches initMon "t" 1 2 3 4 5 6 (.success 200 1) []
    noInfo noInfo rfl

end EarthMonitor
